import Mathlib

/-!
Verification of the plot-sales dashboard's data pipeline: ingestion and
normalization (`load_data`), coordinate mapping (pixel and percentage
strategies), the filter clauses, the sold-summary aggregation, and marker
sizing.  Definitions are a shallow embedding of `src/app.py`,
`src/app_v2.py` and `src/app_multi.py`: pandas columns become record
fields, `NaN`/`NaT` cells become `Option` values (a comparison against a
missing value is false, as in pandas), and numeric cells are rationals.
-/

namespace Dashboard

/-- A raw spreadsheet cell as seen by `pd.to_numeric(..., errors="coerce")`:
either empty, a numeric literal, or non-numeric text. -/
inductive RawValue
  | absent
  | numeric (q : ℚ)
  | text (s : String)
  deriving DecidableEq, Repr

/-- A raw `Sold_Date` cell as seen by
`pd.to_datetime(..., format="%d/%m/%y", errors="coerce")`: empty, a
well-formed `DD/MM/YY` date (represented by its day ordinal), or a
malformed string. -/
inductive RawDate
  | absent
  | valid (d : ℤ)
  | malformed (s : String)
  deriving DecidableEq, Repr

/-- `pd.to_numeric(v, errors="coerce")`: a parse failure or a missing cell
becomes `NaN`, modelled as `none`. -/
def coerceNum : RawValue → Option ℚ
  | .numeric q => some q
  | _ => none

/-- `pd.to_datetime(v, format="%d/%m/%y", errors="coerce")`: a parse
failure or a missing cell becomes `NaT`, modelled as `none`. -/
def coerceDate : RawDate → Option ℤ
  | .valid d => some d
  | _ => none

/-- `.astype(str)` on a cell: never fails (pandas renders a missing cell
as the string "nan"). -/
def rawToString : RawValue → String
  | .absent => "nan"
  | .numeric q => toString q
  | .text s => s

/-- One raw row of the ingested CSV, with the recognized columns of the
pixel-coordinate variants (`app_v2.py`, `app_multi.py`). -/
structure RawRow where
  plot_number : RawValue
  plot_size : RawValue
  sold_amount : RawValue
  x_pixel : RawValue
  y_pixel : RawValue
  sold_date : RawDate
  owner_name : String
  status : String
  deriving DecidableEq, Repr

/-- The ingested CSV: its header names plus its rows. -/
structure RawTable where
  cols : List String
  rows : List RawRow
  deriving Repr

/-- One normalized row (the in-memory dataframe row after the coercions of
`load_data`, plus the derived plot coordinates filled in by the coordinate
mapper). -/
structure Record where
  plot_number : String
  plot_size : Option ℚ
  sold_amount : ℚ
  x_pixel : Option ℚ
  y_pixel : Option ℚ
  sold_date : Option ℤ
  owner_name : String
  status : String
  x_plot : Option ℚ := none
  y_plot : Option ℚ := none
  deriving DecidableEq, Repr

/-- The per-row coercions of `load_data` (`app_multi.py` lines 69-74):
`Plot_Number` is stringified, `Plot_Size` and the pixel columns are
numeric-coerced (failure leaves `NaN`), `Sold_Amount` is numeric-coerced
then `fillna(0)`, `Sold_Date` is date-parsed (failure leaves `NaT`);
`Owner_Name` and `Status` are untouched. -/
def normalizeRow (r : RawRow) : Record :=
  { plot_number := rawToString r.plot_number
    plot_size := coerceNum r.plot_size
    sold_amount := (coerceNum r.sold_amount).getD 0
    x_pixel := coerceNum r.x_pixel
    y_pixel := coerceNum r.y_pixel
    sold_date := coerceDate r.sold_date
    owner_name := r.owner_name
    status := r.status }

/-- The required-column list of `app_multi.py` line 63. -/
def required_cols : List String :=
  ["Plot_Number", "Plot_Size", "Sold_Amount", "X_pixel", "Y_pixel",
   "Sold_Date", "Owner_Name", "Status"]

/-- `missing_cols = [col for col in required_cols if col not in df.columns]`
(`app_multi.py` line 64). -/
def missingCols (t : RawTable) : List String :=
  required_cols.filter (fun c => !t.cols.contains c)

/-- `load_data` (`app_multi.py` lines 62-76): if any required column is
missing, report them all and stop (no partial dataset); otherwise coerce
every row. -/
def load_data (t : RawTable) : Except (List String) (List Record) :=
  match missingCols t with
  | [] => .ok (t.rows.map normalizeRow)
  | c :: cs => .error (c :: cs)

end Dashboard

namespace Dashboard

/-- C3: `load_data` fails if and only if some required column is absent
from the ingested header; the error lists exactly the required names that
are absent; on success no row is dropped: the output row count equals the
input row count. -/
theorem load_data_schema (t : RawTable) :
    ((∃ e, load_data t = .error e) ↔ missingCols t ≠ []) ∧
    (missingCols t ≠ [] → load_data t = .error (missingCols t)) ∧
    (∀ c, c ∈ missingCols t ↔ c ∈ required_cols ∧ c ∉ t.cols) ∧
    (∀ recs, load_data t = .ok recs → recs.length = t.rows.length) := by
  refine ⟨?_, ?_, fun c => by simp [missingCols, List.mem_filter], ?_⟩
  · cases hm : missingCols t with
    | nil => simp [load_data, hm]
    | cons c cs => simp [load_data, hm]
  · cases hm : missingCols t with
    | nil => simp
    | cons c cs => intro _; simp [load_data, hm]
  · intro recs h
    cases hm : missingCols t with
    | nil =>
      simp only [load_data, hm] at h
      simpa using congrArg List.length (Except.ok.inj h).symm
    | cons c cs => simp [load_data, hm] at h

/-- Witness for C3 at a table missing `Sold_Date` and `Status`, and at a
complete table with two rows. -/
theorem load_data_schema_witness :
    (load_data ⟨["Plot_Number", "Plot_Size", "Sold_Amount", "X_pixel",
                 "Y_pixel", "Owner_Name"], []⟩ =
      .error ["Sold_Date", "Status"]) ∧
    (∀ recs,
      load_data ⟨required_cols,
        [⟨.numeric 1, .numeric 100, .numeric 5, .numeric 1, .numeric 2,
          .valid 10, "A", "Sold"⟩,
         ⟨.numeric 2, .text "x", .absent, .numeric 3, .numeric 4,
          .absent, "B", "Available"⟩]⟩ = .ok recs → recs.length = 2) := by
  constructor
  · exact (load_data_schema _).2.1 (by decide)
  · exact (load_data_schema _).2.2.2

/-- `coerceNum` yields a value exactly on numeric cells: absent or textual
(unparsable) cells coerce to `NaN`. -/
theorem coerceNum_eq_none (v : RawValue) :
    coerceNum v = none ↔ v = .absent ∨ ∃ s, v = .text s := by
  cases v <;> simp [coerceNum]

/-- C4: after normalization `sold_amount` is present and numeric (a plain
rational, by construction), and equals exactly 0 whenever the raw cell was
absent or unparsable; `plot_size` is left absent whenever its raw cell does
not parse, and is never defaulted: any present normalized size comes from a
numeric raw cell with that very value. -/
theorem normalize_amount_vs_size (r : RawRow) :
    ((normalizeRow r).sold_amount = (coerceNum r.sold_amount).getD 0) ∧
    (coerceNum r.sold_amount = none → (normalizeRow r).sold_amount = 0) ∧
    (coerceNum r.plot_size = none → (normalizeRow r).plot_size = none) ∧
    (∀ q, (normalizeRow r).plot_size = some q → r.plot_size = .numeric q) := by
  refine ⟨rfl, ?_, ?_, ?_⟩
  · intro h; simp [normalizeRow, h]
  · intro h; simp [normalizeRow, h]
  · intro q hq
    cases hps : r.plot_size with
    | absent => simp [normalizeRow, coerceNum, hps] at hq
    | numeric x => simp [normalizeRow, coerceNum, hps] at hq; simp [hq]
    | text s => simp [normalizeRow, coerceNum, hps] at hq

/-- Witness for C4 at a row whose `Sold_Amount` cell is the unparsable
text "N/A" and whose `Plot_Size` cell is empty. -/
theorem normalize_amount_vs_size_witness :
    (normalizeRow ⟨.numeric 7, .absent, .text "N/A", .numeric 1, .numeric 2,
        .absent, "A", "Sold"⟩).sold_amount = 0 ∧
    (normalizeRow ⟨.numeric 7, .absent, .text "N/A", .numeric 1, .numeric 2,
        .absent, "A", "Sold"⟩).plot_size = none := by
  constructor
  · exact (normalize_amount_vs_size _).2.1 rfl
  · exact (normalize_amount_vs_size _).2.2.1 rfl

/-- `df["Owner_Name"].map(owner_palette).fillna("#999999")` for one row
(`app.py` line 74, `app_multi.py` line 127). -/
def ownerColor (palette : List (String × String)) (r : Record) : String :=
  (palette.lookup r.owner_name).getD "#999999"

/-- `df["Status"] == "Sold"` for one row. -/
def isSold (r : Record) : Bool := r.status == "Sold"

/-- `df["Owner_Name"].isin(selected_owners)` for one row. -/
def ownerClause (selected : List String) (r : Record) : Bool :=
  selected.contains r.owner_name

/-- C10: normalization touches only the coerced columns; `Owner_Name` and
`Status` pass through as the exact raw strings (no trimming or folding),
so the downstream owner-membership test, palette lookup and
`Status == "Sold"` test compare the raw source strings exactly. -/
theorem normalize_frame (r : RawRow) (selected : List String)
    (palette : List (String × String)) :
    ((normalizeRow r).owner_name = r.owner_name) ∧
    ((normalizeRow r).status = r.status) ∧
    (ownerClause selected (normalizeRow r) = selected.contains r.owner_name) ∧
    (ownerColor palette (normalizeRow r) =
      (palette.lookup r.owner_name).getD "#999999") ∧
    (isSold (normalizeRow r) = (r.status == "Sold")) :=
  ⟨rfl, rfl, rfl, rfl, rfl⟩

end Dashboard

namespace Dashboard

/-!  The filter engine (`app_multi.py` lines 268-276).  -/

/-- The filter criteria assembled from the UI widgets: date-range slider,
size-range slider, include-unsold checkbox and owner checkboxes. -/
structure Criteria where
  start_date : ℤ
  end_date : ℤ
  selected_owners : List String
  min_size : ℚ
  max_size : ℚ
  include_unsold : Bool
  deriving DecidableEq, Repr

/-- A pandas comparison `column >= bound`: a missing value (`NaN`/`NaT`)
compares false. -/
def colGE {α : Type} [LinearOrder α] (v : Option α) (bound : α) : Bool :=
  match v with
  | some x => decide (bound ≤ x)
  | none => false

/-- A pandas comparison `column <= bound`: a missing value (`NaN`/`NaT`)
compares false. -/
def colLE {α : Type} [LinearOrder α] (v : Option α) (bound : α) : Bool :=
  match v with
  | some x => decide (x ≤ bound)
  | none => false

/-- The date clause (`app_multi.py` lines 268-271):
`(Sold_Date.isna() & include_unsold) | ((Sold_Date >= start) & (Sold_Date <= end))`. -/
def dateClause (c : Criteria) (r : Record) : Bool :=
  (r.sold_date.isNone && c.include_unsold) ||
  (colGE r.sold_date c.start_date && colLE r.sold_date c.end_date)

/-- The size clause (`app_multi.py` line 274):
`(Plot_Size >= min_size) & (Plot_Size <= max_size)`. -/
def sizeClause (c : Criteria) (r : Record) : Bool :=
  colGE r.plot_size c.min_size && colLE r.plot_size c.max_size

/-- The full filter (`app_multi.py` line 276):
`df[date_filter & owner_filter & size_filter]`. -/
def filterRecords (c : Criteria) (records : List Record) : List Record :=
  records.filter
    (fun r => dateClause c r && ownerClause c.selected_owners r && sizeClause c r)

/-- C2: the date clause includes a record iff its date is absent and
`include_unsold` is set, or its date is present and within the inclusive
range; in particular with `include_unsold` false an absent date is
excluded regardless of the range, and with it true an absent date is never
excluded by date. -/
theorem dateClause_spec (c : Criteria) (r : Record) :
    (dateClause c r = true ↔
      (r.sold_date = none ∧ c.include_unsold = true) ∨
      (∃ d, r.sold_date = some d ∧ c.start_date ≤ d ∧ d ≤ c.end_date)) ∧
    (c.include_unsold = false → r.sold_date = none → dateClause c r = false) ∧
    (c.include_unsold = true → r.sold_date = none → dateClause c r = true) := by
  refine ⟨?_, ?_, ?_⟩
  · cases hd : r.sold_date with
    | none => cases hu : c.include_unsold <;> simp [dateClause, colGE, colLE, hd, hu]
    | some d => simp [dateClause, colGE, colLE, hd]
  · intro hu hd; simp [dateClause, colGE, colLE, hd, hu]
  · intro hu hd; simp [dateClause, colGE, colLE, hd, hu]

/-- Witness for C2: with `include_unsold` set and range
`[2024-01-01, 2024-01-31]` (as day ordinals), an absent-date record is
included, and a record dated 2024-02-01 is excluded. -/
theorem dateClause_spec_witness :
    dateClause ⟨20240101, 20240131, ["A"], 0, 10000, true⟩
      { plot_number := "1", plot_size := some 100, sold_amount := 0,
        x_pixel := none, y_pixel := none, sold_date := none,
        owner_name := "A", status := "Available" } = true ∧
    dateClause ⟨20240101, 20240131, ["A"], 0, 10000, true⟩
      { plot_number := "2", plot_size := some 100, sold_amount := 5,
        x_pixel := none, y_pixel := none, sold_date := some 20240201,
        owner_name := "A", status := "Sold" } = false := by
  constructor
  · exact (dateClause_spec _ _).2.2 rfl rfl
  · have h := (dateClause_spec
      ⟨20240101, 20240131, ["A"], 0, 10000, true⟩
      { plot_number := "2", plot_size := some 100, sold_amount := 5,
        x_pixel := none, y_pixel := none, sold_date := some 20240201,
        owner_name := "A", status := "Sold" }).1
    rw [← Bool.not_eq_true]
    intro hc
    rcases h.mp hc with ⟨hnone, _⟩ | ⟨d, hd, _, hle⟩
    · exact absurd hnone (by simp)
    · have hd' : (some (20240201 : ℤ) : Option ℤ) = some d := hd
      have hle' : d ≤ (20240131 : ℤ) := hle
      have hdd := Option.some.inj hd'
      omega

/-- C8: the size clause passes a record iff its `plot_size` is present and
within the inclusive size range; a record with absent `plot_size` fails the
clause and never appears in the filtered result. -/
theorem sizeClause_spec (c : Criteria) (r : Record) :
    (sizeClause c r = true ↔
      ∃ s, r.plot_size = some s ∧ c.min_size ≤ s ∧ s ≤ c.max_size) ∧
    (r.plot_size = none → sizeClause c r = false) ∧
    (r.plot_size = none → ∀ records, r ∉ filterRecords c records) := by
  refine ⟨?_, ?_, ?_⟩
  · cases hs : r.plot_size with
    | none => simp [sizeClause, colGE, colLE, hs]
    | some s => simp [sizeClause, colGE, colLE, hs]
  · intro hs; simp [sizeClause, colGE, colLE, hs]
  · intro hs records hmem
    have hp := List.of_mem_filter hmem
    rw [Bool.and_eq_true, Bool.and_eq_true] at hp
    have : sizeClause c r = false := by simp [sizeClause, colGE, colLE, hs]
    rw [this] at hp
    exact absurd hp.2 (by simp)

/-- Witness for C8 at a record with absent `plot_size`: it fails the size
clause and is dropped by the filter even though it is in the input. -/
theorem sizeClause_spec_witness :
    sizeClause ⟨0, 100, ["A"], 0, 10000, true⟩
      { plot_number := "1", plot_size := none, sold_amount := 0,
        x_pixel := none, y_pixel := none, sold_date := none,
        owner_name := "A", status := "Available" } = false ∧
    ({ plot_number := "1", plot_size := none, sold_amount := 0,
       x_pixel := none, y_pixel := none, sold_date := none,
       owner_name := "A", status := "Available" } : Record) ∉
      filterRecords ⟨0, 100, ["A"], 0, 10000, true⟩
        [{ plot_number := "1", plot_size := none, sold_amount := 0,
           x_pixel := none, y_pixel := none, sold_date := none,
           owner_name := "A", status := "Available" }] := by
  constructor
  · exact (sizeClause_spec _ _).2.1 rfl
  · exact (sizeClause_spec _ _).2.2 rfl _

/-- C9: the filter is idempotent: filtering an already-filtered list with
the same criteria returns the identical list. -/
theorem filter_idempotent (c : Criteria) (records : List Record) :
    filterRecords c (filterRecords c records) = filterRecords c records := by
  unfold filterRecords
  apply List.filter_eq_self.mpr
  intro a ha
  exact (List.mem_filter.mp ha).2

/-!  The coordinate mapper.  -/

/-- The pixel-strategy mapping (`app_v2.py` lines 54-55, `app_multi.py`
lines 104-106): `X_plot = X_pixel`, `Y_plot = img_height - Y_pixel`
(a missing pixel value propagates as missing). -/
def mapPixelRow (imgHeight : ℚ) (r : Record) : Record :=
  { r with
    x_plot := r.x_pixel
    y_plot := r.y_pixel.map (fun y => imgHeight - y) }

/-- `Y_STRETCH = 1.75` (`app.py` line 13). -/
def Y_STRETCH : ℚ := 175 / 100

/-- `df["X_pct"] = pd.to_numeric(df["X_pct"], errors="coerce") * (3742 / 4425)`
(`app.py` line 43), for one cell. -/
def xPctPlot (v : RawValue) : Option ℚ :=
  (coerceNum v).map (fun x => x * (3742 / 4425))

/-- `df["Y_pct"] = pd.to_numeric(df["Y_pct"], errors="coerce") * Y_STRETCH`
(`app.py` line 44), for one cell. -/
def yPctPlot (v : RawValue) : Option ℚ :=
  (coerceNum v).map (fun y => y * Y_STRETCH)

/-- C5: under the pixel strategy, `x_plot` equals `x_pixel`, and for every
present `y_pixel` the mapped `y_plot` satisfies
`y_plot + y_pixel = image_height` exactly. -/
theorem pixel_strategy (imgHeight : ℚ) (r : Record) :
    ((mapPixelRow imgHeight r).x_plot = r.x_pixel) ∧
    (∀ y, r.y_pixel = some y →
      ∃ yp, (mapPixelRow imgHeight r).y_plot = some yp ∧ yp + y = imgHeight) := by
  refine ⟨rfl, fun y hy => ⟨imgHeight - y, by simp [mapPixelRow, hy], by ring⟩⟩

/-- Witness for C5 at image height 1000 and a record with pixel
coordinates (250, 300): the mapped `y_plot` plus 300 is 1000. -/
theorem pixel_strategy_witness :
    ∃ yp,
      (mapPixelRow 1000
        { plot_number := "1", plot_size := some 100, sold_amount := 0,
          x_pixel := some 250, y_pixel := some 300, sold_date := none,
          owner_name := "A", status := "Available" }).y_plot = some yp ∧
      yp + 300 = 1000 :=
  (pixel_strategy 1000 _).2 300 rfl

/-- C6: under the percentage strategy, a present `x_pct` maps to
`x_pct * (3742 / 4425)` and a present `y_pct` to `y_pct * Y_STRETCH` with
`Y_STRETCH = 1.75`; for inputs in `[0, 100]` the outputs lie in `[0, 100]`
and `[0, 100 * 1.75]` respectively. -/
theorem percentage_strategy (v w : RawValue) (x y : ℚ)
    (hx : coerceNum v = some x) (hy : coerceNum w = some y) :
    (xPctPlot v = some (x * (3742 / 4425))) ∧
    (yPctPlot w = some (y * Y_STRETCH)) ∧
    (Y_STRETCH = 175 / 100) ∧
    (0 ≤ x → x ≤ 100 → ∀ xp, xPctPlot v = some xp → 0 ≤ xp ∧ xp ≤ 100) ∧
    (0 ≤ y → y ≤ 100 → ∀ yp, yPctPlot w = some yp →
      0 ≤ yp ∧ yp ≤ 100 * Y_STRETCH) := by
  refine ⟨by simp [xPctPlot, hx], by simp [yPctPlot, hy], rfl, ?_, ?_⟩
  · intro h0 h100 xp hxp
    simp [xPctPlot, hx] at hxp
    constructor
    · rw [← hxp]; positivity
    · rw [← hxp]; nlinarith
  · intro h0 h100 yp hyp
    simp [yPctPlot, hy] at hyp
    constructor
    · rw [← hyp]; rw [Y_STRETCH]; positivity
    · rw [← hyp]; rw [Y_STRETCH]; nlinarith

/-- Witness for C6 at the cells `x_pct = 50`, `y_pct = 40`. -/
theorem percentage_strategy_witness :
    (xPctPlot (.numeric 50) = some (50 * (3742 / 4425))) ∧
    (yPctPlot (.numeric 40) = some (40 * Y_STRETCH)) ∧
    (∀ xp, xPctPlot (.numeric 50) = some xp → 0 ≤ xp ∧ xp ≤ 100) ∧
    (∀ yp, yPctPlot (.numeric 40) = some yp →
      0 ≤ yp ∧ yp ≤ 100 * Y_STRETCH) := by
  have h := percentage_strategy (.numeric 50) (.numeric 40) 50 40 rfl rfl
  exact ⟨h.1, h.2.1, h.2.2.2.1 (by norm_num) (by norm_num),
    h.2.2.2.2 (by norm_num) (by norm_num)⟩

end Dashboard

namespace Dashboard

/-!  The summary aggregator (`app.py` lines 161-197; `app_multi.py` lines
398-429 is identical up to the markdown-bold `TOTAL` label).  -/

/-- One row of the sold-summary table. -/
structure SummaryRow where
  owner : String
  sold_plots : ℕ
  total_sold_amount : ℚ
  deriving DecidableEq, Repr

/-- The row the left-join gives one selected owner (`app.py` lines
164-181): count and `Sold_Amount` sum over
`df[(Status == "Sold") & Owner_Name.isin(selected)]` grouped by
`Owner_Name`; an owner with no sold records keeps the `fillna(0)` values
(the empty filter contributes length 0 and sum 0). -/
def ownerRow (records : List Record) (selected : List String)
    (o : String) : SummaryRow :=
  let sold := records.filter
    (fun r => isSold r && ownerClause selected r && (r.owner_name == o))
  ⟨o, sold.length, (sold.map Record.sold_amount).sum⟩

/-- `summarize` (`app.py` lines 161-197): one row per selected owner in
the given order, then a trailing `TOTAL` row summing the per-owner
columns. -/
def summarize (records : List Record) (selected : List String) :
    List SummaryRow :=
  let perOwner := selected.map (ownerRow records selected)
  perOwner ++
    [⟨"TOTAL", (perOwner.map SummaryRow.sold_plots).sum,
      (perOwner.map SummaryRow.total_sold_amount).sum⟩]

/-- The per-owner row as the claim words it: count and sold-amount sum of
the dataset's records with status `Sold` and that owner name. -/
def specOwnerRow (records : List Record) (o : String) : SummaryRow :=
  let sold := records.filter (fun r => r.status == "Sold" && r.owner_name == o)
  ⟨o, sold.length, (sold.map Record.sold_amount).sum⟩

/-- The trailing total row as the claim words it: sums over the per-owner
rows. -/
def specTotalRow (records : List Record) (selected : List String) :
    SummaryRow :=
  ⟨"TOTAL",
    ((selected.map (specOwnerRow records)).map SummaryRow.sold_plots).sum,
    ((selected.map (specOwnerRow records)).map SummaryRow.total_sold_amount).sum⟩

/-- For an owner drawn from the selected list, the joined aggregation row
coincides with the claim's direct per-owner aggregation. -/
theorem ownerRow_eq_spec (records : List Record) (selected : List String)
    (o : String) (ho : o ∈ selected) :
    ownerRow records selected o = specOwnerRow records o := by
  unfold ownerRow specOwnerRow
  have hfilter :
      records.filter
        (fun r => isSold r && ownerClause selected r && (r.owner_name == o)) =
      records.filter (fun r => r.status == "Sold" && r.owner_name == o) := by
    apply List.filter_congr
    intro r _
    cases hname : (r.owner_name == o) with
    | false => simp [hname]
    | true =>
      have : r.owner_name = o := by simpa using hname
      simp [isSold, ownerClause, hname, this]
      intro _
      exact ho
  rw [hfilter]

/-- C1: `summarize` returns exactly `len(selected) + 1` rows: the first
`len(selected)` are, in order, each selected owner's count and sold-amount
sum over the records with status `Sold` and that owner (0 and 0 when there
are none, since the empty aggregate has length 0 and sum 0), and the last
is a single `TOTAL` row summing the per-owner columns. -/
theorem summarize_complete (records : List Record) (selected : List String) :
    ((summarize records selected).length = selected.length + 1) ∧
    ((summarize records selected).take selected.length =
      selected.map (specOwnerRow records)) ∧
    ((summarize records selected).getLast? =
      some (specTotalRow records selected)) := by
  have hmap : selected.map (ownerRow records selected) =
      selected.map (specOwnerRow records) :=
    List.map_congr_left (fun o ho => ownerRow_eq_spec records selected o ho)
  unfold summarize
  rw [hmap]
  refine ⟨by simp, ?_, ?_⟩
  · have := List.take_left (selected.map (specOwnerRow records))
      [(⟨"TOTAL",
        ((selected.map (specOwnerRow records)).map SummaryRow.sold_plots).sum,
        ((selected.map (specOwnerRow records)).map
          SummaryRow.total_sold_amount).sum⟩ : SummaryRow)]
    rw [List.length_map] at this
    exact this
  · rw [List.getLast?_concat]
    rfl

end Dashboard

namespace Dashboard

/-!  Marker sizing (`app_multi.py` lines 285-296).  -/

/-- `df["Plot_Size"].min()` over the (present) sizes of a nonempty
filtered set. -/
def listMin : List ℚ → ℚ
  | [] => 0
  | x :: xs => xs.foldl min x

/-- `df["Plot_Size"].max()` over the (present) sizes of a nonempty
filtered set. -/
def listMax : List ℚ → ℚ
  | [] => 0
  | x :: xs => xs.foldl max x

/-- One record's marker size in the positive-range branch
(`app_multi.py` lines 291-292):
`min_marker + (normalized_size ** 0.5) * (max_marker - min_marker)` with
`min_marker = 12`, `max_marker = 40` and
`normalized_size = (Plot_Size - min) / (max - min)`. -/
noncomputable def markerSize (mn mx s : ℚ) : ℝ :=
  12 + Real.sqrt (((s : ℝ) - (mn : ℝ)) / ((mx : ℝ) - (mn : ℝ))) * (40 - 12)

/-- The marker-size computation (`app_multi.py` lines 285-296): empty
filtered set gives no sizes; a positive size range gives the square-root
normalization; a zero range gives `[30] * len(df_filtered)`. -/
noncomputable def markerSizes (sizes : List ℚ) : List ℝ :=
  if sizes = [] then []
  else if listMax sizes - listMin sizes > 0 then
    sizes.map (markerSize (listMin sizes) (listMax sizes))
  else sizes.map (fun _ => (30 : ℝ))

/-- C7 counterexample: on a filtered set whose sizes are all equal
(here the one-element dataset `[1000]`) the code assigns every record the
constant marker 30, while the claim's formula with `t = 0` assigns
`12 + sqrt 0 * (40 - 12) = 12`; the two disagree. -/
theorem marker_sizing_counterexample :
    markerSizes [1000] = [(30 : ℝ)] ∧
    (12 : ℝ) + Real.sqrt 0 * (40 - 12) = 12 ∧
    (30 : ℝ) ≠ (12 : ℝ) := by
  refine ⟨?_, by rw [Real.sqrt_zero]; ring, by norm_num⟩
  have h1 : ([(1000 : ℚ)] : List ℚ) ≠ [] := by simp
  have h2 : ¬ (listMax [(1000 : ℚ)] - listMin [(1000 : ℚ)] > 0) := by
    norm_num [listMin, listMax]
  rw [markerSizes, if_neg (by simp), if_neg h2]
  rfl

/-- C7 amended: when the filtered set's sizes are not all equal,
each size `s` gets marker `12 + sqrt ((s - min) / (max - min)) * (40 - 12)`
(the normalizer already lies in `[0, 1]` for dataset members, so no
clamping occurs); the minimum-size record maps to exactly 12, the maximum
to exactly 40, and a strictly intermediate size strictly between them.
When all sizes are equal, every record gets the constant marker 30. -/
theorem marker_sizing_amended (sizes : List ℚ) :
    (listMin sizes < listMax sizes →
      (markerSizes sizes =
        sizes.map (markerSize (listMin sizes) (listMax sizes))) ∧
      (markerSize (listMin sizes) (listMax sizes) (listMin sizes) = 12) ∧
      (markerSize (listMin sizes) (listMax sizes) (listMax sizes) = 40) ∧
      (∀ s, listMin sizes < s → s < listMax sizes →
        12 < markerSize (listMin sizes) (listMax sizes) s ∧
        markerSize (listMin sizes) (listMax sizes) s < 40)) ∧
    (sizes ≠ [] → listMax sizes ≤ listMin sizes →
      markerSizes sizes = sizes.map (fun _ => (30 : ℝ))) := by
  constructor
  · intro hlt
    have hne : sizes ≠ [] := by
      intro h
      rw [h] at hlt
      simp [listMin, listMax] at hlt
    have hltR : ((listMin sizes : ℚ) : ℝ) < ((listMax sizes : ℚ) : ℝ) := by
      exact_mod_cast hlt
    have hden : (0 : ℝ) < (listMax sizes : ℝ) - (listMin sizes : ℝ) := by
      linarith
    refine ⟨?_, ?_, ?_, ?_⟩
    · rw [markerSizes, if_neg hne, if_pos (by linarith)]
    · rw [markerSize]
      rw [sub_self, zero_div, Real.sqrt_zero]
      ring
    · rw [markerSize]
      rw [div_self (ne_of_gt hden), Real.sqrt_one]
      ring
    · intro s hs1 hs2
      have hs1R : ((listMin sizes : ℚ) : ℝ) < ((s : ℚ) : ℝ) := by
        exact_mod_cast hs1
      have hs2R : ((s : ℚ) : ℝ) < ((listMax sizes : ℚ) : ℝ) := by
        exact_mod_cast hs2
      set t : ℝ := ((s : ℝ) - (listMin sizes : ℝ)) /
        ((listMax sizes : ℝ) - (listMin sizes : ℝ)) with ht
      have ht0 : 0 < t := div_pos (by linarith) hden
      have ht1 : t < 1 := (div_lt_one hden).mpr (by linarith)
      have hsq0 : 0 < Real.sqrt t := Real.sqrt_pos.mpr ht0
      have hsq1 : Real.sqrt t < 1 := by
        have := Real.sqrt_lt_sqrt ht0.le ht1
        rwa [Real.sqrt_one] at this
      rw [markerSize, ← ht]
      constructor
      · nlinarith
      · nlinarith
  · intro hne hle
    rw [markerSizes, if_neg hne, if_neg (by linarith)]

/-- Witness for C7 (amended) at the spec's example sizes
`[1000, 2000, 4000]`: the minimum maps to 12, the maximum to 40, and the
middle size strictly between. -/
theorem marker_sizing_amended_witness :
    markerSize (listMin [1000, 2000, 4000]) (listMax [1000, 2000, 4000])
      1000 = 12 ∧
    markerSize (listMin [1000, 2000, 4000]) (listMax [1000, 2000, 4000])
      4000 = 40 ∧
    (12 < markerSize (listMin [1000, 2000, 4000])
      (listMax [1000, 2000, 4000]) 2000 ∧
     markerSize (listMin [1000, 2000, 4000])
      (listMax [1000, 2000, 4000]) 2000 < 40) := by
  have hmin : listMin [(1000 : ℚ), 2000, 4000] = 1000 := by
    norm_num [listMin]
  have hmax : listMax [(1000 : ℚ), 2000, 4000] = 4000 := by
    norm_num [listMax]
  have h := marker_sizing_amended [1000, 2000, 4000]
  have h1 := h.1 (by rw [hmin, hmax]; norm_num)
  refine ⟨?_, ?_, ?_⟩
  · have := h1.2.1
    rwa [hmin] at this
  · have := h1.2.2.1
    rwa [hmax] at this
  · exact h1.2.2.2 2000 (by rw [hmin]; norm_num) (by rw [hmax]; norm_num)

end Dashboard
